import Mathlib

/-!
Verification development for the Puter.js integration of open-webui:
a shallow embedding of `src/lib/apis/puter/index.ts` and of the
controller logic of
`src/lib/components/admin/Settings/Connections/PuterConnection.svelte`,
together with theorems settling the specification's claims.

JavaScript strings are modelled as Lean `String`s (character granularity),
JS `undefined`/optional fields as `Option`, promise rejection as
`Except.error`, and JS truthiness of strings (empty string is falsy) by
comparison with the empty string.
-/

namespace Puter

/-- JS string truthiness fallback `a || b`: `b` when `a` is empty. -/
def jsOr (a b : String) : String := if a = "" then b else a

/-- JS truthiness fallback for an optional string: `a || b` where `a` may be
`undefined` (absent) or empty, both falsy. -/
def jsOrO (a : Option String) (b : String) : String :=
  match a with
  | some s => if s = "" then b else s
  | none => b

/-- Model of JS `s.slice(0, n)` at character granularity. -/
def jsSlice (s : String) (n : Nat) : String := String.mk (s.data.take n)

/-- Model of JS `s.trim()`: strip leading and trailing whitespace
(structurally, at character granularity). -/
def jsTrim (s : String) : String :=
  String.mk (((s.data.dropWhile Char.isWhitespace).reverse.dropWhile Char.isWhitespace).reverse)

/-- Model of JS `s.includes(c)` for a single-character needle. -/
def jsIncludes (s : String) (c : Char) : Bool := s.data.contains c

/-- Model of JS `s.split(sep)[0]` for a single-character separator: the
prefix of `s` before the first occurrence of `sep` (all of `s` when `sep`
does not occur). -/
def jsSplitHead (s : String) (sep : Char) : String :=
  String.mk (s.data.takeWhile (fun ch => !(ch == sep)))

/-- `PuterUser` from `src/lib/types/puter.ts`. -/
structure PuterUser where
  uuid : String
  username : String
  email : Option String
deriving DecidableEq

/-- `PuterCustomModel` from `src/lib/types/puter.ts`: a user-entered custom
model id with optional endpoint. -/
structure PuterCustomModel where
  id : String
  endpoint : Option String
deriving DecidableEq

/-- `PuterModel` from `src/lib/types/puter.ts`. -/
structure PuterModel where
  id : String
  name : Option String
  provider : Option String
  endpoint : Option String
deriving DecidableEq

/-- Token usage statistics attached to a chat response. -/
structure PuterUsage where
  prompt_tokens : Nat
  completion_tokens : Nat
deriving DecidableEq

/-- Message roles of `PuterChatMessage`. -/
inductive ChatRole where
  | system
  | user
  | assistant
deriving DecidableEq

/-- `PuterChatMessage` from `src/lib/types/puter.ts`. -/
structure PuterChatMessage where
  role : ChatRole
  content : String
deriving DecidableEq

/-- `PuterChatOptions`. The numeric passthrough fields (`temperature`,
`max_tokens`) are never inspected by the code under verification and are
elided. -/
structure PuterChatOptions where
  model : Option String
  stream : Option Bool
deriving DecidableEq

/-- The `error` field of `PuterErrorResponse`. -/
structure PuterErrorInfo where
  message : Option String
  code : Option String
deriving DecidableEq

/-- The possible shapes of the raw value produced by `puter.ai.chat`:
an explicit error payload (an object with `success: false`), an async
iterable of stream chunks (each chunk optionally carrying text), a single
complete `PuterChatResponse`, or a rejected promise. -/
inductive RawResponse where
  | errorPayload (error : Option PuterErrorInfo)
  | stream (chunks : List (Option String))
  | single (content : String) (usage : Option PuterUsage)
  | reject (msg : String)
deriving DecidableEq

/-- The message built from an error payload in `chat`:
`error?.message || error?.code || 'Puter API error'`. -/
def puterErrorMessage (e : Option PuterErrorInfo) : String :=
  match e with
  | none => "Puter API error"
  | some info => jsOrO info.message (jsOrO info.code "Puter API error")

/-- Observable callback events of a `chat` invocation, in delivery order:
`onToken`, `onComplete`, `onError`. -/
inductive ChatEvent where
  | token (text : String)
  | complete (fullText : String) (usage : Option PuterUsage)
  | error (msg : String)
deriving DecidableEq

def isTokenEvent : ChatEvent → Bool
  | ChatEvent.token _ => true
  | _ => false

def isCompleteEvent : ChatEvent → Bool
  | ChatEvent.complete _ _ => true
  | _ => false

def isErrorEvent : ChatEvent → Bool
  | ChatEvent.error _ => true
  | _ => false

/-- Whether `abortController.signal.aborted` reads true at abort-check point
`i`. `cancelAt = some k` means the caller aborted before check `k` (and the
signal stays aborted); `none` means the invocation is never cancelled. -/
def isAborted (cancelAt : Option Nat) (i : Nat) : Bool :=
  match cancelAt with
  | none => false
  | some k => decide (k ≤ i)

/-- The `for await` loop of `chat` over the stream chunks, starting at
abort-check point `i` with accumulator `acc`: per iteration it first checks
the abort signal (breaking out if aborted), then delivers `chunk.text` to
`onToken` when the text is present and non-empty (JS truthiness of
`chunk?.text`), accumulating the full text. Returns the final accumulated
text and the list of delivered events. -/
def streamLoop (cancelAt : Option Nat) :
    List (Option String) → Nat → String → String × List ChatEvent
  | [], _, acc => (acc, [])
  | c :: rest, i, acc =>
    if isAborted cancelAt i then (acc, [])
    else
      match c with
      | none => streamLoop cancelAt rest (i + 1) acc
      | some t =>
        if t = "" then streamLoop cancelAt rest (i + 1) acc
        else
          let r := streamLoop cancelAt rest (i + 1) (acc ++ t)
          (r.1, ChatEvent.token t :: r.2)

/-- The body of `chat` (lines 123-175 of `src/lib/apis/puter/index.ts`)
given the raw response: an error payload throws, and the catch delivers
`onError` unless the signal is already aborted; an async-iterable response
runs the stream loop and then always calls `onComplete` with the
accumulated text; any other object is treated as a single complete
response (`onToken` with the full content, then `onComplete`); a rejected
SDK promise is caught and delivered as `onError` unless aborted. -/
def chatRun (resp : RawResponse) (cancelAt : Option Nat) : List ChatEvent :=
  match resp with
  | RawResponse.errorPayload e =>
    if isAborted cancelAt 0 then [] else [ChatEvent.error (puterErrorMessage e)]
  | RawResponse.reject m =>
    if isAborted cancelAt 0 then [] else [ChatEvent.error m]
  | RawResponse.stream chunks =>
    let r := streamLoop cancelAt chunks 0 ""
    r.2 ++ [ChatEvent.complete r.1 none]
  | RawResponse.single content usage =>
    [ChatEvent.token content, ChatEvent.complete content usage]

/-- The injected SDK global together with its availability: `available`
models `typeof window.puter !== 'undefined'`, the `auth*` fields the results
of the corresponding `puter.auth` calls, and `aiChat` the raw value
produced by `puter.ai.chat` for given messages and options. -/
structure PuterEnv where
  available : Bool
  authSignIn : Except String Bool
  authSignOut : Except String Unit
  authIsSignedIn : Bool
  authGetUser : Except String PuterUser
  aiChat : List PuterChatMessage → PuterChatOptions → RawResponse

/-- The error message thrown by `getPuter` when the SDK global is absent. -/
def sdkMissingMsg : String :=
  "Puter SDK is not loaded. Make sure the script is included in app.html."

/-- `isPuterAvailable`. -/
def isPuterAvailable (env : PuterEnv) : Bool := env.available

/-- `signIn`: calls `getPuter()` (throwing when the SDK is absent), then
awaits `puter.auth.signIn()`; a rejection is logged and rethrown. -/
def signIn (env : PuterEnv) : Except String Bool :=
  if env.available then env.authSignIn else Except.error sdkMissingMsg

/-- `signOut`: calls `getPuter()` then awaits `puter.auth.signOut()`. -/
def signOut (env : PuterEnv) : Except String Unit :=
  if env.available then env.authSignOut else Except.error sdkMissingMsg

/-- `isSignedIn`: `false` when the SDK is absent, else
`puter.auth.isSignedIn()`. -/
def isSignedIn (env : PuterEnv) : Bool :=
  if env.available then env.authIsSignedIn else false

/-- `getUser`: `null` when not signed in; otherwise awaits
`puter.auth.getUser()`, catching any rejection and returning `null`. -/
def getUser (env : PuterEnv) : Except String (Option PuterUser) :=
  if isSignedIn env then
    match env.authGetUser with
    | Except.ok u => Except.ok (some u)
    | Except.error _ => Except.ok none
  else Except.ok none

/-- `chat`: calls `getPuter()` (so the returned promise rejects when the
SDK is absent), invokes `puter.ai.chat(messages, {...options, stream:
true})` and processes the raw response as `chatRun`, returning the list of
callback events delivered. -/
def chat (env : PuterEnv) (messages : List PuterChatMessage)
    (options : PuterChatOptions) (cancelAt : Option Nat) :
    Except String (List ChatEvent) :=
  if env.available then
    Except.ok (chatRun (env.aiChat messages { options with stream := some true }) cancelAt)
  else Except.error sdkMissingMsg

/-- Result of `chatSync`. -/
structure ChatSyncResult where
  text : String
  usage : Option PuterUsage
deriving DecidableEq

/-- `chatSync`: calls `getPuter()` then
`puter.ai.chat(messages, {...options, stream: false})` and reads
`response.message.content` with no shape check; when the raw value is not a
single complete response, the property access
`(response as PuterChatResponse).message.content` fails at runtime
(reading `content` of `undefined`), which we model as an error; a rejected
SDK promise propagates. -/
def chatSync (env : PuterEnv) (messages : List PuterChatMessage)
    (options : PuterChatOptions) : Except String ChatSyncResult :=
  if env.available then
    match env.aiChat messages { options with stream := some false } with
    | RawResponse.single content usage => Except.ok { text := content, usage := usage }
    | RawResponse.reject m => Except.error m
    | RawResponse.errorPayload _ => Except.error "TypeError: cannot read properties of undefined"
    | RawResponse.stream _ => Except.error "TypeError: cannot read properties of undefined"
  else Except.error sdkMissingMsg

/-- `CURATED_PUTER_MODELS` from `src/lib/apis/puter/index.ts`. -/
def CURATED_PUTER_MODELS : List PuterModel := [
  { id := "gpt-4o", name := some "GPT-4o", provider := some "openai", endpoint := none },
  { id := "gpt-4o-mini", name := some "GPT-4o Mini", provider := some "openai", endpoint := none },
  { id := "gpt-4.1", name := some "GPT-4.1", provider := some "openai", endpoint := none },
  { id := "gpt-4.1-mini", name := some "GPT-4.1 Mini", provider := some "openai", endpoint := none },
  { id := "gpt-4.1-nano", name := some "GPT-4.1 Nano", provider := some "openai", endpoint := none },
  { id := "o1", name := some "o1", provider := some "openai", endpoint := none },
  { id := "o1-mini", name := some "o1 Mini", provider := some "openai", endpoint := none },
  { id := "o3-mini", name := some "o3 Mini", provider := some "openai", endpoint := none },
  { id := "claude-sonnet-4-20250514", name := some "Claude Sonnet 4", provider := some "anthropic", endpoint := none },
  { id := "claude-3-7-sonnet-20250219", name := some "Claude 3.7 Sonnet", provider := some "anthropic", endpoint := none },
  { id := "claude-3-5-sonnet-20241022", name := some "Claude 3.5 Sonnet", provider := some "anthropic", endpoint := none },
  { id := "claude-haiku-4-5-20251001", name := some "Claude Haiku 4.5", provider := some "anthropic", endpoint := none },
  { id := "gemini-2.0-flash", name := some "Gemini 2.0 Flash", provider := some "google", endpoint := none },
  { id := "gemini-2.5-flash", name := some "Gemini 2.5 Flash", provider := some "google", endpoint := none },
  { id := "gemini-2.5-pro", name := some "Gemini 2.5 Pro", provider := some "google", endpoint := none },
  { id := "deepseek-chat", name := some "DeepSeek Chat", provider := some "deepseek", endpoint := none },
  { id := "deepseek-reasoner", name := some "DeepSeek Reasoner", provider := some "deepseek", endpoint := none },
  { id := "mistral-large-latest", name := some "Mistral Large", provider := some "mistral", endpoint := none },
  { id := "mistral-small-2506", name := some "Mistral Small", provider := some "mistral", endpoint := none },
  { id := "grok-3", name := some "Grok 3", provider := some "xai", endpoint := none },
  { id := "grok-3-mini", name := some "Grok 3 Mini", provider := some "xai", endpoint := none }
]

/-- `getCuratedModels`. -/
def getCuratedModels : List PuterModel := CURATED_PUTER_MODELS

/-- `getModelsWithCustom`: the curated catalog followed by the custom
entries whose id is truthy, trims non-empty, and whose trimmed id is not a
curated id; each kept entry is formatted with trimmed id, name equal to the
trimmed id, provider derived by splitting the raw id on the first `:` when
present (else `custom`), and trimmed endpoint normalised to absent when
empty. -/
def getModelsWithCustom (customModels : List PuterCustomModel) : List PuterModel :=
  let curated := getCuratedModels
  let curatedIds := curated.map (fun m => m.id)
  let custom :=
    (customModels.filter (fun m =>
        m.id != "" && jsTrim m.id != "" && !(curatedIds.contains (jsTrim m.id)))).map
      (fun m =>
        ({ id := jsTrim m.id
           name := some (jsTrim m.id)
           provider := some (if jsIncludes m.id ':' then jsSplitHead m.id ':' else "custom")
           endpoint :=
             match m.endpoint with
             | none => none
             | some e => if jsTrim e = "" then none else some (jsTrim e) } : PuterModel))
  curated ++ custom

/-- An entry of the application's global model list, as built by
`refreshGlobalModels` in `PuterConnection.svelte`. -/
structure GlobalModel where
  id : String
  name : String
  owned_by : String
  external : Bool
  puter : Bool
deriving DecidableEq

/-- The per-entry transformation applied by `refreshGlobalModels` to a
Puter model: `id` becomes `puter/` followed by `m.id || m.name ||
'unknown'`, `name` becomes `Puter: ` followed by `m.name || m.id ||
'Unknown Model'`, owner `puter`, and the `external` and `puter` flags set. -/
def formatPuterModel (m : PuterModel) : GlobalModel :=
  { id := "puter/" ++ jsOr m.id (jsOrO m.name "unknown")
    name := "Puter: " ++ jsOrO m.name (jsOr m.id "Unknown Model")
    owned_by := "puter"
    external := true
    puter := true }

/-- `refreshGlobalModels` from `PuterConnection.svelte`: starts from the
base list fetched from the other providers and, when the Puter feature is
enabled and the SDK is available, appends the merged Puter catalog (when
non-empty) transformed entrywise by `formatPuterModel`. -/
def refreshGlobalModels (base : List GlobalModel) (puterEnabled : Bool)
    (puterAvailable : Bool) (customModels : List PuterCustomModel) :
    List GlobalModel :=
  if puterEnabled && puterAvailable then
    let puterModels := getModelsWithCustom customModels
    if puterModels.length > 0 then base ++ puterModels.map formatPuterModel
    else base
  else base

/-- The display id used by `refreshModels`: `m.id || m.name || 'unknown'`. -/
def modelDisplayId (m : PuterModel) : String := jsOr m.id (jsOrO m.name "unknown")

/-- The component state touched by `handleToggle`: the `puterEnabled` and
`puterSignedIn` stores, the local `availableModels` and `customModels`
lists, and the `puterEnabled` field of the persisted settings fragment. -/
structure PanelState where
  puterEnabled : Bool
  puterSignedIn : Bool
  availableModels : List String
  customModels : List PuterCustomModel
  persistedEnabled : Option Bool
deriving DecidableEq

/-- Observable outcome of `handleToggle`: the resulting state, whether an
error notification (`toast.error`) was shown, and how many settings
persistence writes (`updateUserSettings`) were performed. -/
structure ToggleOutcome where
  state : PanelState
  errorToast : Bool
  persistWrites : Nat
deriving DecidableEq

/-- `handleToggle` from `PuterConnection.svelte`. The `Switch` binding has
already flipped `$puterEnabled` to its new value when the handler runs, so
`st.puterEnabled` is the attempted new value. Enabling with the SDK absent
shows an error, reverts the flag and returns before the persistence write;
every other path persists the new flag. When enabling with the SDK
available and already signed in, the signed-in flag is set and the local
model list refreshed; disabling clears the local model list. -/
def handleToggle (puterAvailable sdkSignedIn : Bool) (st : PanelState) :
    ToggleOutcome :=
  if st.puterEnabled then
    if puterAvailable then
      let st1 :=
        if sdkSignedIn then
          { st with puterSignedIn := true
                    availableModels := (getModelsWithCustom st.customModels).map modelDisplayId }
        else st
      { state := { st1 with persistedEnabled := some st1.puterEnabled }
        errorToast := false
        persistWrites := 1 }
    else
      { state := { st with puterEnabled := false }
        errorToast := true
        persistWrites := 0 }
  else
    let st1 := { st with availableModels := ([] : List String) }
    { state := { st1 with persistedEnabled := some st1.puterEnabled }
      errorToast := false
      persistWrites := 1 }

/-- The component state read by `addCustomModel`: the custom registry and
the two input fields. -/
structure AddState where
  customModels : List PuterCustomModel
  newCustomModelId : String
  newCustomModelEndpoint : String
deriving DecidableEq

/-- Observable outcome of `addCustomModel`: resulting registry and input
fields, whether a validation error (`toast.error`) was shown, and how many
settings persistence writes were performed. -/
structure AddOutcome where
  customModels : List PuterCustomModel
  newCustomModelId : String
  newCustomModelEndpoint : String
  errorToast : Bool
  persistWrites : Nat
deriving DecidableEq

/-- `addCustomModel` from `PuterConnection.svelte`: trims the entered id,
rejects an empty trim or an id already present in the custom list
(case-sensitive `===` comparison), and otherwise appends one entry with the
trimmed id and the trimmed endpoint normalised to absent when empty,
clearing the inputs and persisting. -/
def addCustomModel (st : AddState) : AddOutcome :=
  let modelId := jsTrim st.newCustomModelId
  if modelId = "" then
    { customModels := st.customModels
      newCustomModelId := st.newCustomModelId
      newCustomModelEndpoint := st.newCustomModelEndpoint
      errorToast := true
      persistWrites := 0 }
  else if st.customModels.any (fun m => m.id == modelId) then
    { customModels := st.customModels
      newCustomModelId := st.newCustomModelId
      newCustomModelEndpoint := st.newCustomModelEndpoint
      errorToast := true
      persistWrites := 0 }
  else
    { customModels := st.customModels ++
        [{ id := modelId
           endpoint :=
             if jsTrim st.newCustomModelEndpoint = "" then none
             else some (jsTrim st.newCustomModelEndpoint) }]
      newCustomModelId := ""
      newCustomModelEndpoint := ""
      errorToast := false
      persistWrites := 1 }

/-- A persisted `puterCustomModels` entry: the legacy format stored plain
strings, the current format stores objects. -/
inductive StoredCustomModel where
  | str (s : String)
  | obj (m : PuterCustomModel)
deriving DecidableEq

/-- The `onMount` migration in `PuterConnection.svelte`: each persisted
entry that is a plain string `m` becomes `{ id: m }`; object entries are
kept as they are. -/
def migrateCustomModels (stored : List StoredCustomModel) : List PuterCustomModel :=
  stored.map (fun m =>
    match m with
    | StoredCustomModel.str s => { id := s, endpoint := none }
    | StoredCustomModel.obj o => o)

/-- The two messages `generateTitle` sends, with both conversation sides
truncated to 200 characters. -/
def titleMessages (userMessage assistantMessage : String) : List PuterChatMessage :=
  [ { role := ChatRole.system
      content := "Generate a very brief title (3-6 words) for this conversation. Reply with ONLY the title, no quotes or punctuation." }
  , { role := ChatRole.user
      content := "User: " ++ jsSlice userMessage 200 ++ "\n\nAssistant: " ++ jsSlice assistantMessage 200 } ]

/-- `generateTitle`: calls `chatSync` with the title prompt and model
`gpt-4o-mini`; on success returns the response text trimmed and sliced to
100 characters, and any error is caught and replaced by `New Chat`. -/
def generateTitle (env : PuterEnv) (userMessage assistantMessage : String) : String :=
  match chatSync env (titleMessages userMessage assistantMessage)
      { model := some "gpt-4o-mini", stream := none } with
  | Except.ok r => jsSlice (jsTrim r.text) 100
  | Except.error _ => "New Chat"

/-- The texts actually delivered as tokens from a chunk list: the present,
non-empty chunk texts in order. -/
def chunkTexts (chunks : List (Option String)) : List String :=
  chunks.filterMap (fun c =>
    match c with
    | some t => if t = "" then none else some t
    | none => none)

/-- Cancelling at abort-check point `k` behaves exactly like running the
uncancelled loop on the stream truncated to its first `k - i` chunks. -/
theorem streamLoop_cancel_eq_take (chunks : List (Option String)) :
    ∀ (k i : Nat) (acc : String),
      streamLoop (some k) chunks i acc = streamLoop none (chunks.take (k - i)) i acc := by
  induction chunks with
  | nil =>
    intro k i acc
    simp [streamLoop]
  | cons c rest ih =>
    intro k i acc
    by_cases hk : k ≤ i
    · have h0 : k - i = 0 := Nat.sub_eq_zero_of_le hk
      simp [streamLoop, isAborted, hk, h0]
    · have hpos : k - i = (k - (i + 1)) + 1 := by omega
      rw [hpos]
      cases c with
      | none =>
        simp [streamLoop, isAborted, hk, ih]
      | some t =>
        by_cases ht : t = ""
        · simp [streamLoop, isAborted, hk, ht, ih]
        · simp [streamLoop, isAborted, hk, ht, ih]

/-- The uncancelled stream loop delivers one token per present non-empty
chunk text, in order, and accumulates their concatenation. -/
theorem streamLoop_none_spec (chunks : List (Option String)) :
    ∀ (i : Nat) (acc : String),
      streamLoop none chunks i acc =
        ((chunkTexts chunks).foldl (fun r s => r ++ s) acc,
         (chunkTexts chunks).map ChatEvent.token) := by
  induction chunks with
  | nil =>
    intro i acc
    simp [streamLoop, chunkTexts]
  | cons c rest ih =>
    intro i acc
    cases c with
    | none => simp [streamLoop, isAborted, chunkTexts, ih]
    | some t =>
      by_cases ht : t = ""
      · simp [streamLoop, isAborted, chunkTexts, ht, ih]
      · simp [streamLoop, isAborted, chunkTexts, ht, ih]

/-- Event counts in a trace of token events followed by one completion. -/
theorem token_complete_counts (l : List String) (s : String) (u : Option PuterUsage) :
    (l.map ChatEvent.token ++ [ChatEvent.complete s u]).countP isErrorEvent = 0 ∧
    (l.map ChatEvent.token ++ [ChatEvent.complete s u]).countP isCompleteEvent = 1 ∧
    (l.map ChatEvent.token ++ [ChatEvent.complete s u]).countP isTokenEvent = l.length := by
  induction l with
  | nil => simp [List.countP_cons, isErrorEvent, isCompleteEvent, isTokenEvent]
  | cons t rest ih =>
    simp only [List.map_cons, List.cons_append, List.countP_cons]
    simp [isErrorEvent, isCompleteEvent, isTokenEvent, ih.1, ih.2.1, ih.2.2]

/-- C4: an uncancelled `chat` distinguishes the three raw-response
outcomes: an error payload yields exactly one `onError` call; a streaming
response yields one `onToken` per delivered token chunk followed by a
single `onComplete` carrying the concatenation of the delivered tokens; a
single complete response yields one `onToken` with the full text followed
by one `onComplete` with the same text. -/
theorem chatRun_uncancelled_cases :
    (∀ e, chatRun (RawResponse.errorPayload e) none = [ChatEvent.error (puterErrorMessage e)]) ∧
    (∀ chunks, chatRun (RawResponse.stream chunks) none =
      (chunkTexts chunks).map ChatEvent.token
        ++ [ChatEvent.complete (String.join (chunkTexts chunks)) none]) ∧
    (∀ content usage, chatRun (RawResponse.single content usage) none =
      [ChatEvent.token content, ChatEvent.complete content usage]) := by
  refine ⟨fun e => rfl, fun chunks => ?_, fun content usage => rfl⟩
  simp [chatRun, streamLoop_none_spec, String.join]

/-- C3 counterexample: cancelling after the first chunk of a two-chunk
stream still fires `onComplete` (with the truncated text), refuting the
claim that neither `onError` nor `onComplete` fires once cancelled. -/
theorem chat_cancel_claim_cex :
    chatRun (RawResponse.stream [some "a", some "b"]) (some 1)
        = [ChatEvent.token "a", ChatEvent.complete "a" none] ∧
    ChatEvent.complete "a" none ∈ chatRun (RawResponse.stream [some "a", some "b"]) (some 1) := by
  constructor
  · rfl
  · decide

/-- C3 (amended): a streaming invocation cancelled at chunk boundary `k`
delivers exactly the events of the stream truncated to its first `k`
chunks: no token from a chunk at or past the cancellation point is
delivered and `onError` never fires, but the loop breaks out (rather than
draining) and `onComplete` still fires exactly once, carrying the
concatenation of the tokens delivered before cancellation. -/
theorem chat_cancelled_stream_truncates (chunks : List (Option String)) (k : Nat) :
    chatRun (RawResponse.stream chunks) (some k)
        = chatRun (RawResponse.stream (chunks.take k)) none ∧
    (chatRun (RawResponse.stream chunks) (some k)).countP isErrorEvent = 0 ∧
    (chatRun (RawResponse.stream chunks) (some k)).countP isCompleteEvent = 1 ∧
    (chatRun (RawResponse.stream chunks) (some k)).countP isTokenEvent
        = (chunkTexts (chunks.take k)).length := by
  have h1 : chatRun (RawResponse.stream chunks) (some k)
      = chatRun (RawResponse.stream (chunks.take k)) none := by
    simp only [chatRun]
    rw [streamLoop_cancel_eq_take chunks k 0, Nat.sub_zero]
  have h2 : chatRun (RawResponse.stream (chunks.take k)) none
      = (chunkTexts (chunks.take k)).map ChatEvent.token
          ++ [ChatEvent.complete
                ((chunkTexts (chunks.take k)).foldl (fun r s => r ++ s) "") none] := by
    simp [chatRun, streamLoop_none_spec]
  have h3 := token_complete_counts (chunkTexts (chunks.take k))
      ((chunkTexts (chunks.take k)).foldl (fun r s => r ++ s) "") none
  rw [h1, h2]
  exact ⟨rfl, h3.1, h3.2.1, h3.2.2⟩

/-- C2: rebuilding the global model list with the Puter feature disabled
returns the base list unchanged, for any SDK availability and any custom
model contents; in particular the number of puter-tagged entries is
exactly that of the base list, so no provider-derived entry is added. -/
theorem refreshGlobalModels_disabled_identity :
    ∀ (base : List GlobalModel) (avail : Bool) (cms : List PuterCustomModel),
      refreshGlobalModels base false avail cms = base ∧
      (refreshGlobalModels base false avail cms).countP (fun m => m.puter)
        = base.countP (fun m => m.puter) := by
  intro base avail cms
  constructor <;> simp [refreshGlobalModels]

/-- C6: rebuilding the global model list with the Puter feature enabled,
the SDK available and an empty custom list appends exactly the curated
catalog, each entry with its id prefixed `puter/`, its name prefixed
`Puter: `, owner `puter`, and the `external` and `puter` flags set. -/
theorem refreshGlobalModels_enabled_curated (base : List GlobalModel) :
    refreshGlobalModels base true true [] =
      base ++ CURATED_PUTER_MODELS.map (fun m =>
        { id := "puter/" ++ m.id
          name := "Puter: " ++ m.name.getD m.id
          owned_by := "puter"
          external := true
          puter := true }) := rfl

/-- The JS truthiness guard `m.id && m.id.trim() && ...` of
`getModelsWithCustom` is equivalent to dropping the redundant `m.id`
conjunct, since an id whose trim is non-empty is itself non-empty. -/
theorem customFilter_pointwise (m : PuterCustomModel) :
    (m.id != "" && jsTrim m.id != ""
        && !((CURATED_PUTER_MODELS.map (fun c => c.id)).contains (jsTrim m.id)))
      = (jsTrim m.id != ""
        && !((CURATED_PUTER_MODELS.map (fun c => c.id)).contains (jsTrim m.id))) := by
  by_cases h : m.id = ""
  · rw [h]
    decide
  · have hb : (m.id != "") = true := bne_iff_ne.mpr h
    rw [hb, Bool.true_and]

/-- Filtering with pointwise-equal boolean predicates gives equal lists. -/
theorem filter_eq_of_pointwise {α : Type} (p q : α → Bool) (h : ∀ a, p a = q a) :
    ∀ l : List α, l.filter p = l.filter q := by
  intro l
  induction l with
  | nil => rfl
  | cons a rest ih => simp only [List.filter_cons, h a, ih]

/-- The formatting of one accepted custom entry, as the spec describes it:
trimmed id (doubling as the name), provider equal to the prefix of the
entry id before the first `:` when present and `custom` otherwise, and the
trimmed endpoint normalised to absent when missing or empty. -/
def specCustomEntry (m : PuterCustomModel) : PuterModel :=
  { id := jsTrim m.id
    name := some (jsTrim m.id)
    provider := some (if jsIncludes m.id ':' then jsSplitHead m.id ':' else "custom")
    endpoint :=
      match m.endpoint with
      | none => none
      | some e => if jsTrim e = "" then none else some (jsTrim e) }

/-- C5: `getModelsWithCustom` returns the curated catalog (in order)
concatenated with exactly those custom entries whose trimmed id is
non-empty and not a curated id, each formatted as `specCustomEntry`;
in particular adding `openrouter:meta-llama/llama-3.1-8b-instruct` with no
endpoint yields a merged entry with provider `openrouter` and no
endpoint. -/
theorem getModelsWithCustom_spec :
    (∀ cms : List PuterCustomModel,
      getModelsWithCustom cms =
        CURATED_PUTER_MODELS ++
          (cms.filter (fun m =>
            jsTrim m.id != ""
              && !((CURATED_PUTER_MODELS.map (fun c => c.id)).contains (jsTrim m.id)))).map
            specCustomEntry) ∧
    specCustomEntry { id := "openrouter:meta-llama/llama-3.1-8b-instruct", endpoint := none } =
      { id := "openrouter:meta-llama/llama-3.1-8b-instruct"
        name := some "openrouter:meta-llama/llama-3.1-8b-instruct"
        provider := some "openrouter"
        endpoint := none } ∧
    ({ id := "openrouter:meta-llama/llama-3.1-8b-instruct"
       name := some "openrouter:meta-llama/llama-3.1-8b-instruct"
       provider := some "openrouter"
       endpoint := none } : PuterModel) ∈
      getModelsWithCustom [{ id := "openrouter:meta-llama/llama-3.1-8b-instruct", endpoint := none }] := by
  refine ⟨fun cms => ?_, by decide, by decide⟩
  simp only [getModelsWithCustom, getCuratedModels, customFilter_pointwise]
  rfl

/-- C1 counterexample: adding the id `gpt-4o`, which is a curated id, to an
empty custom registry is not rejected: the registry grows by one entry and
no validation error is surfaced, refuting the claim that a trimmed id
equal to an existing curated id leaves the registry unchanged with a
validation error. -/
theorem addCustomModel_curated_collision_cex :
    ((CURATED_PUTER_MODELS.map (fun m => m.id)).contains "gpt-4o" = true) ∧
    (addCustomModel { customModels := [], newCustomModelId := "gpt-4o",
                      newCustomModelEndpoint := "" }).customModels
      = [{ id := "gpt-4o", endpoint := none }] ∧
    (addCustomModel { customModels := [], newCustomModelId := "gpt-4o",
                      newCustomModelEndpoint := "" }).errorToast = false := by
  refine ⟨by decide, by decide, by decide⟩

/-- C1 (amended): an attempted addition fails - registry unchanged, a
validation error surfaced, nothing persisted - exactly when the trimmed id
is empty or equals an existing custom id (case-sensitive); otherwise,
including when the trimmed id collides only with a curated id, exactly one
entry is appended, carrying the trimmed id and the trimmed endpoint
normalised to absent when empty. -/
theorem addCustomModel_amended (st : AddState) :
    ((jsTrim st.newCustomModelId = "" ∨
        st.customModels.any (fun m => m.id == jsTrim st.newCustomModelId) = true) →
      (addCustomModel st).customModels = st.customModels ∧
      (addCustomModel st).errorToast = true ∧
      (addCustomModel st).persistWrites = 0) ∧
    (jsTrim st.newCustomModelId ≠ "" →
      st.customModels.any (fun m => m.id == jsTrim st.newCustomModelId) = false →
      (addCustomModel st).customModels =
        st.customModels ++
          [{ id := jsTrim st.newCustomModelId
             endpoint :=
               if jsTrim st.newCustomModelEndpoint = "" then none
               else some (jsTrim st.newCustomModelEndpoint) }] ∧
      (addCustomModel st).errorToast = false ∧
      (addCustomModel st).persistWrites = 1) := by
  constructor
  · intro h
    rcases h with h | h
    · simp [addCustomModel, h]
    · by_cases he : jsTrim st.newCustomModelId = ""
      · simp [addCustomModel, he]
      · simp [addCustomModel, he, h]
  · intro h1 h2
    simp [addCustomModel, h1, h2]

/-- Witness for the amended C1 theorem: an empty-trimming id is rejected
leaving the registry empty, and a fresh id ` m1 ` is appended as `m1`. -/
theorem addCustomModel_amended_witness :
    (addCustomModel { customModels := [], newCustomModelId := " ",
                      newCustomModelEndpoint := "" }).customModels = [] ∧
    (addCustomModel { customModels := [], newCustomModelId := " m1 ",
                      newCustomModelEndpoint := "" }).customModels
      = [{ id := "m1", endpoint := none }] := by
  constructor
  · exact ((addCustomModel_amended { customModels := [], newCustomModelId := " ",
                                     newCustomModelEndpoint := "" }).1 (Or.inl (by decide))).1
  · have h := (addCustomModel_amended { customModels := [], newCustomModelId := " m1 ",
                                        newCustomModelEndpoint := "" }).2 (by decide) (by decide)
    exact h.1.trans (by decide)

/-- C9: turning the toggle on while the SDK global is absent is rejected:
the enabled flag reverts to false, an error notification is shown, and no
settings-persistence write occurs, the persisted fragment being left
untouched. -/
theorem toggle_on_sdk_absent_rejected (sIn : Bool) (am : List String)
    (cms : List PuterCustomModel) (pe : Option Bool) (sdkSignedIn : Bool) :
    handleToggle false sdkSignedIn
        { puterEnabled := true, puterSignedIn := sIn, availableModels := am,
          customModels := cms, persistedEnabled := pe } =
      { state := { puterEnabled := false, puterSignedIn := sIn, availableModels := am,
                   customModels := cms, persistedEnabled := pe }
        errorToast := true
        persistWrites := 0 } := rfl

/-- C8: loading the persisted `puterCustomModels` migrates each legacy
plain-string entry `s` to `{ id := s }` with no endpoint and keeps each
object entry unchanged, so persisting a registry and reloading it is
lossless. -/
theorem customModels_migration_roundtrip :
    (∀ ss : List String,
      migrateCustomModels (ss.map StoredCustomModel.str)
        = ss.map (fun s => { id := s, endpoint := none })) ∧
    (∀ cms : List PuterCustomModel,
      migrateCustomModels (cms.map StoredCustomModel.obj) = cms) := by
  constructor
  · intro ss
    induction ss with
    | nil => rfl
    | cons s rest ih =>
      simp only [List.map_cons, migrateCustomModels] at ih ⊢
      rw [ih]
  · intro cms
    induction cms with
    | nil => rfl
    | cons m rest ih =>
      simp only [List.map_cons, migrateCustomModels] at ih ⊢
      rw [ih]

/-- C7: with the SDK global absent, `signIn`, `signOut`, `chat` and
`chatSync` all fail fast with the SDK-missing error while `isSignedIn`
degrades to `false`; and `getUser` returns `null` without raising both
when the adapter reports not-signed-in and when the underlying user fetch
rejects - indeed `getUser` never errors at all. -/
theorem adapter_unavailable_behaviour :
    (∀ (sI : Except String Bool) (sO : Except String Unit) (iS : Bool)
        (gU : Except String PuterUser)
        (f : List PuterChatMessage → PuterChatOptions → RawResponse),
      signIn { available := false, authSignIn := sI, authSignOut := sO,
               authIsSignedIn := iS, authGetUser := gU, aiChat := f }
          = Except.error sdkMissingMsg ∧
      signOut { available := false, authSignIn := sI, authSignOut := sO,
                authIsSignedIn := iS, authGetUser := gU, aiChat := f }
          = Except.error sdkMissingMsg ∧
      isSignedIn { available := false, authSignIn := sI, authSignOut := sO,
                   authIsSignedIn := iS, authGetUser := gU, aiChat := f } = false ∧
      (∀ msgs opts c,
        chat { available := false, authSignIn := sI, authSignOut := sO,
               authIsSignedIn := iS, authGetUser := gU, aiChat := f } msgs opts c
          = Except.error sdkMissingMsg) ∧
      (∀ msgs opts,
        chatSync { available := false, authSignIn := sI, authSignOut := sO,
                   authIsSignedIn := iS, authGetUser := gU, aiChat := f } msgs opts
          = Except.error sdkMissingMsg)) ∧
    (∀ (avail : Bool) (sI : Except String Bool) (sO : Except String Unit)
        (gU : Except String PuterUser)
        (f : List PuterChatMessage → PuterChatOptions → RawResponse),
      getUser { available := avail, authSignIn := sI, authSignOut := sO,
                authIsSignedIn := false, authGetUser := gU, aiChat := f }
        = Except.ok none) ∧
    (∀ (sI : Except String Bool) (sO : Except String Unit)
        (f : List PuterChatMessage → PuterChatOptions → RawResponse) (e : String),
      getUser { available := true, authSignIn := sI, authSignOut := sO,
                authIsSignedIn := true, authGetUser := Except.error e, aiChat := f }
        = Except.ok none) ∧
    (∀ env : PuterEnv, ∃ v, getUser env = Except.ok v) := by
  refine ⟨?_, ?_, ?_, ?_⟩
  · intro sI sO iS gU f
    exact ⟨rfl, rfl, rfl, fun msgs opts c => rfl, fun msgs opts => rfl⟩
  · intro avail sI sO gU f
    cases avail <;> rfl
  · intro sI sO f e
    rfl
  · intro env
    unfold getUser
    by_cases h : isSignedIn env = true
    · rw [if_pos h]
      cases env.authGetUser with
      | ok u => exact ⟨some u, rfl⟩
      | error e => exact ⟨none, rfl⟩
    · rw [if_neg h]
      exact ⟨none, rfl⟩

/-- A character-level slice is no longer than its bound. -/
theorem jsSlice_length_le (s : String) (n : Nat) : (jsSlice s n).length ≤ n := by
  show (s.data.take n).length ≤ n
  rw [List.length_take]
  exact Nat.min_le_left _ _

/-- C10: `generateTitle` never propagates an error - whenever the
underlying non-streaming chat call fails (SDK absent, promise rejection,
or a malformed response) it returns the fixed string `New Chat`, and on
success it returns the response text trimmed and truncated to at most 100
characters - so its result always has length at most 100. -/
theorem generateTitle_total_and_bounded :
    (∀ (env : PuterEnv) (u a : String), (generateTitle env u a).length ≤ 100) ∧
    (∀ (sI : Except String Bool) (sO : Except String Unit) (iS : Bool)
        (gU : Except String PuterUser)
        (f : List PuterChatMessage → PuterChatOptions → RawResponse) (u a : String),
      generateTitle { available := false, authSignIn := sI, authSignOut := sO,
                      authIsSignedIn := iS, authGetUser := gU, aiChat := f } u a
        = "New Chat") ∧
    (∀ (sI : Except String Bool) (sO : Except String Unit) (iS : Bool)
        (gU : Except String PuterUser) (c : String) (usage : Option PuterUsage) (u a : String),
      generateTitle { available := true, authSignIn := sI, authSignOut := sO,
                      authIsSignedIn := iS, authGetUser := gU,
                      aiChat := fun _ _ => RawResponse.single c usage } u a
        = jsSlice (jsTrim c) 100) ∧
    (∀ (sI : Except String Bool) (sO : Except String Unit) (iS : Bool)
        (gU : Except String PuterUser) (m : String) (u a : String),
      generateTitle { available := true, authSignIn := sI, authSignOut := sO,
                      authIsSignedIn := iS, authGetUser := gU,
                      aiChat := fun _ _ => RawResponse.reject m } u a
        = "New Chat") := by
  refine ⟨?_, fun sI sO iS gU f u a => rfl, fun sI sO iS gU c usage u a => rfl,
    fun sI sO iS gU m u a => rfl⟩
  intro env u a
  unfold generateTitle
  split
  · exact jsSlice_length_le _ _
  · decide

end Puter
